import Mathlib

/-!
# Verification of the Google Assistant smart-home capability translator

Shallow embedding of `homeassistant/components/google_assistant/smart_home.py`:
the capability map `MAPPING_COMPONENT`, the device-descriptor builder
`entity_to_device`, the state normalizer `query_device` and the command
resolver `determine_service`, together with proofs of the specified
properties.

Python numeric values are modelled as exact rationals (`ℚ`); Python's
`int()` truncation, `round()` banker's rounding and string operations are
modelled explicitly below.  A Python `TypeError` escaping a function is
modelled by an `Option.none` result.
-/

namespace SmartHome

/-- Python `int(q)` on a numeric value: truncation toward zero. -/
def pytrunc (q : ℚ) : ℤ := if 0 ≤ q then ⌊q⌋ else ⌈q⌉

/-- Python `round(q)` to an integer: round half to even (banker's rounding). -/
def pyround (q : ℚ) : ℤ :=
  if q - ⌊q⌋ < 1 / 2 then ⌊q⌋
  else if 1 / 2 < q - ⌊q⌋ then ⌊q⌋ + 1
  else if ⌊q⌋ % 2 = 0 then ⌊q⌋ else ⌊q⌋ + 1

/-- A Python value that can sit under the `on` key of the parameter bag.
Distinguishes the boolean `True` from the integer `1` and from strings, so
that the source's identity test `params.get('on') is True` is modelled
faithfully. -/
inductive PyVal where
  | bool (b : Bool)
  | int (n : ℤ)
  | str (s : String)
deriving DecidableEq, Repr

/-- The Python identity test `v is True`: only the boolean `True` passes. -/
def PyVal.isTrueId : Option PyVal → Bool
  | some (.bool true) => true
  | _ => false

/-- A numeric attribute value as stored in the attributes dict: either the
Python `None` or a number.  (An absent key is modelled by `Option.none`
around this type.) -/
inductive AttrVal where
  | null
  | num (q : ℚ)
deriving DecidableEq, Repr

/-- The command parameter bag `{on?, brightness?}` (spec §6).  `on` may hold
an arbitrary Python value; `brightness` is numeric when present. -/
structure Params where
  «on» : Option PyVal := none
  brightness : Option ℚ := none
deriving DecidableEq, Repr

/-- The attributes mapping of an entity snapshot, restricted to the keys
the translator reads: `brightness` (which may be present-but-`None`),
`volume_level`, `supported_features`, the two display-name keys and
`aliases`. -/
structure Attributes where
  brightness : Option AttrVal := none
  volume_level : Option ℚ := none
  supported_features : Option ℕ := none
  google_assistant_name : Option String := none
  friendly_name : Option String := none
  aliases : Option (List String) := none
deriving DecidableEq, Repr

/-- An entity snapshot as supplied by the registry (spec §3). -/
structure Entity where
  entity_id : String
  domain : String
  state : String
  attributes : Attributes := {}
deriving DecidableEq, Repr

/-- The service-data dict built by `determine_service`: always carries
`entity_id`, and at most one of the optional keys. -/
structure ServiceData where
  entity_id : String
  brightness : Option ℤ := none
  volume : Option ℚ := none
  position : Option ℚ := none
deriving DecidableEq, Repr

/-- Output of `query_device`. -/
structure QueryResult where
  «on» : Bool
  online : Bool
  brightness : ℤ
deriving DecidableEq, Repr

/-- The `name` sub-dict of a device descriptor.  `name` may be Python
`None` (modelled `Option.none`); `nicknames` is present only when the
aliases attribute was a list. -/
structure DeviceName where
  name : Option String := none
  nicknames : Option (List String) := none
deriving DecidableEq, Repr

/-- A protocol device descriptor (output of `entity_to_device`). -/
structure DeviceDescriptor where
  id : String
  type : String
  traits : List String
  name : DeviceName
  willReportState : Bool
deriving DecidableEq, Repr

/-- Modelled from the spec: the `ON_OFF` member of the closed command enum
(defined in the absent `.const` module as `COMMAND_ONOFF`). -/
def COMMAND_ONOFF : String := "ON_OFF"

/-- Modelled from the spec: the `BRIGHTNESS` member of the closed command
enum (defined in the absent `.const` module as `COMMAND_BRIGHTNESS`). -/
def COMMAND_BRIGHTNESS : String := "BRIGHTNESS"

/-- Modelled from the spec: the constant type-prefix prepended to every
device type (defined in the absent `.const` module as `PREFIX_TYPES`).
The claims depend only on it being a fixed constant. -/
def PREFIX_TYPES : String := "type-prefix/"

/-- Modelled from the spec: the constant trait-prefix prepended to every
trait (defined in the absent `.const` module as `PREFIX_TRAITS`). -/
def PREFIX_TRAITS : String := "trait-prefix/"

/-- Modelled from the spec: the canonical off sentinel `STATE_OFF`
(defined in the absent `homeassistant.const` module). -/
def STATE_OFF : String := "off"

/-- Modelled from the spec: the service name `SERVICE_TURN_ON` from the
absent `homeassistant.const` module; the spec calls it "turn-on". -/
def SERVICE_TURN_ON : String := "turn-on"

/-- Modelled from the spec: the service name `SERVICE_TURN_OFF`; the spec
calls it "turn-off". -/
def SERVICE_TURN_OFF : String := "turn-off"

/-- Modelled from the spec: `media_player.SERVICE_VOLUME_SET`; the spec
calls it "volume-set". -/
def SERVICE_VOLUME_SET : String := "volume-set"

/-- Modelled from the spec: `cover.SERVICE_OPEN_COVER`; the spec calls it
"open-cover". -/
def SERVICE_OPEN_COVER : String := "open-cover"

/-- Modelled from the spec: `cover.SERVICE_CLOSE_COVER`; the spec calls it
"close-cover". -/
def SERVICE_CLOSE_COVER : String := "close-cover"

/-- Modelled from the spec: `cover.SERVICE_SET_COVER_POSITION`; the spec
calls it "set-cover-position". -/
def SERVICE_SET_COVER_POSITION : String := "set-cover-position"

/-- One entry of `MAPPING_COMPONENT`: `[actions schema, command, optional
features]`, the optional features being the (SUPPORT_* flag → trait)
pairs.  An absent third element (`None` in the source) and an empty dict
behave identically under the source's truthiness test, so both are the
empty list. -/
structure CapabilityEntry where
  deviceType : String
  baseTrait : String
  featureTraits : List (ℕ × String)
deriving DecidableEq, Repr

/-- The capability map `MAPPING_COMPONENT`, keyed by entity domain.  The
numeric feature flags (`light.SUPPORT_BRIGHTNESS = 1`,
`light.SUPPORT_COLOR_TEMP = 2`, `light.SUPPORT_RGB_COLOR = 16`,
`cover.SUPPORT_SET_POSITION = 4`, `media_player.SUPPORT_VOLUME_SET = 4`)
are defined in absent component modules; the claims depend only on their
being fixed numeric bitmasks. -/
def MAPPING_COMPONENT (domain : String) : Option CapabilityEntry :=
  if domain = "group" then some ⟨"SCENE", "ActivateScene", []⟩
  else if domain = "switch" then some ⟨"SWITCH", "OnOff", []⟩
  else if domain = "fan" then some ⟨"SWITCH", "OnOff", []⟩
  else if domain = "light" then
    some ⟨"LIGHT", "OnOff",
      [(1, "Brightness"), (16, "ColorSpectrum"), (2, "ColorTemperature")]⟩
  else if domain = "cover" then
    some ⟨"LIGHT", "OnOff", [(4, "Brightness")]⟩
  else if domain = "media_player" then
    some ⟨"LIGHT", "OnOff", [(4, "Brightness")]⟩
  else none

/-- Python's `a or b` over the two optional name attributes: the first
operand wins iff it is truthy (not `None` and non-empty). -/
def pyOrName (a b : Option String) : Option String :=
  match a with
  | some s => if s = "" then b else some s
  | none => b

/-- `entity_to_device` (source lines 61–95): convert a hass entity into a
google actions device, or `none` for an unsupported domain. -/
def entity_to_device (entity : Entity) : Option DeviceDescriptor :=
  match MAPPING_COMPONENT entity.domain with
  | none => none
  | some class_data =>
    let supported := entity.attributes.supported_features.getD 0
    some
      { id := entity.entity_id
        type := PREFIX_TYPES ++ class_data.deviceType
        traits := (PREFIX_TRAITS ++ class_data.baseTrait) ::
          (class_data.featureTraits.filter
            (fun ft => decide (ft.1 &&& supported > 0))).map
            (fun ft => PREFIX_TRAITS ++ ft.2)
        name :=
          { name := pyOrName entity.attributes.google_assistant_name
              entity.attributes.friendly_name
            nicknames := entity.attributes.aliases }
        willReportState := false }

/-- The resolved 0–255-scale brightness of `query_device` (source lines
100–111), before the percent scaling: the brightness attribute with the
on/off default, overridden for media players by the volume conversion,
with the `None`-guard re-applying the default. -/
def final_brightness255 (entity : Entity) : ℚ :=
  let final_state : Bool := entity.state ≠ STATE_OFF
  let fb : Option ℚ :=
    match entity.attributes.brightness with
    | none => some (if final_state then 255 else 0)
    | some .null => none
    | some (.num q) => some q
  let fb : Option ℚ :=
    if entity.domain = "media_player" then
      let level := entity.attributes.volume_level.getD
        (if final_state then 1 else 0)
      some ((pyround (min 1 level * 255) : ℤ) : ℚ)
    else fb
  match fb with
  | none => if final_state then 255 else 0
  | some q => q

/-- `query_device` (source lines 98–119): entity state to the protocol's
on/online/brightness representation. -/
def query_device (entity : Entity) : QueryResult :=
  let final_state : Bool := entity.state ≠ STATE_OFF
  { «on» := final_state
    online := true
    brightness := pytrunc (100 * (final_brightness255 entity / 255)) }

/-- The characters of a string before the first `'.'` (all of them when no
dot occurs). -/
def beforeDot : List Char → List Char
  | [] => []
  | c :: cs => if c = '.' then [] else c :: beforeDot cs

/-- The domain of an entity id: `entity_id.split('.')[0]`, the prefix of
the id before the first dot (the whole id when it has no dot, matching
Python's `split`, whose first fragment is then the whole string). -/
def domainOf (entity_id : String) : String :=
  ⟨beforeDot entity_id.data⟩

/-- `determine_service` (source lines 125–157): resolve a command to a
(service, service_data) pair.  The generic brightness branch evaluates
`int(params.get('brightness') / 100 * 255)`, which raises a `TypeError`
when the key is absent (`None / 100`); that raise is modelled by
`Option.none`. -/
def determine_service (entity_id : String) (command : String)
    (params : Params) : Option (String × ServiceData) :=
  let domain := domainOf entity_id
  let service_data : ServiceData := { entity_id := entity_id }
  if domain = "media_player" ∧ command = COMMAND_BRIGHTNESS then
    let brightness := params.brightness.getD 0
    some (SERVICE_VOLUME_SET, { service_data with volume := some (brightness / 100) })
  else if domain = "cover" ∧ command = COMMAND_BRIGHTNESS then
    some (SERVICE_SET_COVER_POSITION,
      { service_data with position := some (params.brightness.getD 0) })
  else if domain = "cover" ∧ command = COMMAND_ONOFF then
    if PyVal.isTrueId params.«on» then
      some (SERVICE_OPEN_COVER, service_data)
    else
      some (SERVICE_CLOSE_COVER, service_data)
  else if command = COMMAND_BRIGHTNESS then
    match params.brightness with
    | none => none
    | some brightness =>
      some (SERVICE_TURN_ON,
        { service_data with brightness := some (pytrunc (brightness / 100 * 255)) })
  else if COMMAND_ONOFF = command ∧ PyVal.isTrueId params.«on» then
    some (SERVICE_TURN_ON, service_data)
  else
    some (SERVICE_TURN_OFF, service_data)

/-- A concrete light entity, state "on", brightness attribute 128. -/
def lightOn128 : Entity :=
  { entity_id := "light.kitchen", domain := "light", state := "on",
    attributes := { brightness := some (AttrVal.num 128) } }

/-- A concrete media-player entity, state "playing", volume level 0.5 and
a (to-be-ignored) brightness attribute 10. -/
def mediaPlayerHalf : Entity :=
  { entity_id := "media_player.tv", domain := "media_player",
    state := "playing",
    attributes := { brightness := some (AttrVal.num 10),
                    volume_level := some (1/2) } }

/-- `mediaPlayerHalf` with its brightness attribute removed. -/
def mediaPlayerHalfNoBrightness : Entity :=
  { mediaPlayerHalf with
    attributes := { mediaPlayerHalf.attributes with brightness := none } }

/-- A concrete light entity, state "off", explicit brightness attribute
255. -/
def lightOff255 : Entity :=
  { entity_id := "light.kitchen", domain := "light", state := "off",
    attributes := { brightness := some (AttrVal.num 255) } }

/-! ## Shared lemmas -/

theorem pytrunc_eq_floor (q : ℚ) (h : 0 ≤ q) : pytrunc q = ⌊q⌋ := if_pos h

theorem COMMAND_ONOFF_ne_BRIGHTNESS : COMMAND_ONOFF ≠ COMMAND_BRIGHTNESS := by
  decide

theorem isTrueId_eq_false {v : PyVal} (h : v ≠ PyVal.bool true) :
    PyVal.isTrueId (some v) = false := by
  cases v with
  | bool b => cases b with
    | true => exact absurd rfl h
    | false => rfl
  | int n => rfl
  | str s => rfl

/-! ## C1: generic brightness command -/

/-- C1: the claim as stated is false on the code: for
`resolve("light.kitchen", BRIGHTNESS, {brightness: 50})` the code computes
`int(50 / 100 * 255) = 127`, not `round(50 / 100 * 255) = 128` as the
claim requires. -/
theorem C1_counterexample :
    determine_service "light.kitchen" COMMAND_BRIGHTNESS { brightness := some 50 } =
      some (SERVICE_TURN_ON,
        { entity_id := "light.kitchen", brightness := some 127 }) ∧
    pyround (50 / 100 * 255) = 128 ∧ (127 : ℤ) ≠ 128 := by
  refine ⟨?_, by norm_num [pyround], by decide⟩
  simp [determine_service, domainOf, beforeDot, COMMAND_BRIGHTNESS, COMMAND_ONOFF,
    SERVICE_TURN_ON]
  norm_num [pytrunc]

/-- C1 (amended): for every entityId whose domain is neither media_player
nor cover, and every parameter bag containing a numeric brightness `b`,
resolve returns service "turn-on" with `args.brightness` equal to the
**truncation** (Python `int`, not `round`) of `b / 100 * 255`; in
particular brightness 50 yields 127. -/
theorem C1_generic_brightness (entity_id : String) (p : Params) (b : ℚ)
    (h1 : domainOf entity_id ≠ "media_player")
    (h2 : domainOf entity_id ≠ "cover")
    (hb : p.brightness = some b) :
    determine_service entity_id COMMAND_BRIGHTNESS p =
      some (SERVICE_TURN_ON,
        { entity_id := entity_id, brightness := some (pytrunc (b / 100 * 255)) }) := by
  simp [determine_service, h1, h2, hb]

/-- C1 witness: the amended claim at the concrete input of the spec's
example, where the truncation yields 127. -/
theorem C1_witness :
    determine_service "light.kitchen" COMMAND_BRIGHTNESS { brightness := some 50 } =
      some (SERVICE_TURN_ON,
        { entity_id := "light.kitchen", brightness := some 127 }) := by
  have h := C1_generic_brightness "light.kitchen" { brightness := some 50 } 50
    (by decide) (by decide) rfl
  rw [h]
  norm_num [pytrunc]

/-! ## C2: totality of the resolver -/

/-- C2: the claim as stated is false on the code: for the generic
BRIGHTNESS command with a parameter bag lacking the brightness key, the
source evaluates `int(None / 100 * 255)` and raises a `TypeError`
(modelled by `none`) instead of returning a (service, args) pair. -/
theorem C2_counterexample :
    determine_service "light.kitchen" COMMAND_BRIGHTNESS {} = none := by
  simp [determine_service, domainOf, beforeDot, COMMAND_BRIGHTNESS, COMMAND_ONOFF]

/-- C2 (amended): resolve returns a (service, args) pair for every input
**except** when the command is the generic BRIGHTNESS command, the domain
is neither media_player nor cover, and the bag has no brightness key — on
exactly those inputs it raises (`none`). -/
theorem C2_total_except_missing_brightness (entity_id command : String)
    (p : Params) :
    (determine_service entity_id command p).isSome = true ↔
      ¬(command = COMMAND_BRIGHTNESS ∧ domainOf entity_id ≠ "media_player" ∧
        domainOf entity_id ≠ "cover" ∧ p.brightness = none) := by
  rcases p with ⟨o, b⟩
  simp only [determine_service]
  rcases b with _ | b <;>
    split_ifs with h1 h2 h3 h4 h5 <;>
    simp_all

/-! ## C6: cover on/off -/

/-- C6: for every entityId with domain cover, resolve on the ON_OFF
command returns "open-cover" when `params.on` is the boolean `True` and
"close-cover" otherwise, with args containing exactly the entityId. -/
theorem C6_cover_onoff (entity_id : String) (p : Params)
    (hc : domainOf entity_id = "cover") :
    (p.«on» = some (PyVal.bool true) →
      determine_service entity_id COMMAND_ONOFF p =
        some (SERVICE_OPEN_COVER, { entity_id := entity_id })) ∧
    (p.«on» ≠ some (PyVal.bool true) →
      determine_service entity_id COMMAND_ONOFF p =
        some (SERVICE_CLOSE_COVER, { entity_id := entity_id })) := by
  constructor
  · intro hon
    simp [determine_service, hc, hon, COMMAND_ONOFF_ne_BRIGHTNESS, PyVal.isTrueId]
  · intro hon
    have hfalse : PyVal.isTrueId p.«on» = false := by
      rcases ho : p.«on» with _ | v
      · rfl
      · exact isTrueId_eq_false (by rintro rfl; exact hon ho)
    simp [determine_service, hc, hfalse, COMMAND_ONOFF_ne_BRIGHTNESS]

/-- C6 witness: `resolve("cover.garage", ON_OFF, {on: true})` yields
open-cover and `{on: false}` yields close-cover. -/
theorem C6_witness :
    determine_service "cover.garage" COMMAND_ONOFF
        { «on» := some (PyVal.bool true) } =
      some (SERVICE_OPEN_COVER, { entity_id := "cover.garage" }) ∧
    determine_service "cover.garage" COMMAND_ONOFF
        { «on» := some (PyVal.bool false) } =
      some (SERVICE_CLOSE_COVER, { entity_id := "cover.garage" }) :=
  ⟨(C6_cover_onoff "cover.garage" _ (by decide)).1 rfl,
   (C6_cover_onoff "cover.garage" _ (by decide)).2 (by decide)⟩

/-! ## C7: fall-through to turn-off -/

/-- C7: for every entityId whose domain is not cover, both an ON_OFF
command whose `on` parameter is not the boolean `True` (including an
absent key) and any command outside the recognized enum resolve to
"turn-off" with args exactly the entityId. -/
theorem C7_fallthrough_turn_off (entity_id command : String) (p : Params)
    (hc : domainOf entity_id ≠ "cover")
    (h : (command = COMMAND_ONOFF ∧ p.«on» ≠ some (PyVal.bool true)) ∨
         (command ≠ COMMAND_ONOFF ∧ command ≠ COMMAND_BRIGHTNESS)) :
    determine_service entity_id command p =
      some (SERVICE_TURN_OFF, { entity_id := entity_id }) := by
  rcases h with ⟨hcmd, hon⟩ | ⟨hcmd1, hcmd2⟩
  · have hfalse : PyVal.isTrueId p.«on» = false := by
      rcases ho : p.«on» with _ | v
      · rfl
      · exact isTrueId_eq_false (by rintro rfl; exact hon ho)
    subst hcmd
    simp [determine_service, hc, hfalse, COMMAND_ONOFF_ne_BRIGHTNESS]
  · simp [determine_service, hc, hcmd1, hcmd2, Ne.symm hcmd1]

/-- C7 witness: `resolve("switch.x", ON_OFF, {})` (no `on` key) yields
`("turn-off", {entityId: "switch.x"})`. -/
theorem C7_witness :
    determine_service "switch.x" COMMAND_ONOFF {} =
      some (SERVICE_TURN_OFF, { entity_id := "switch.x" }) :=
  C7_fallthrough_turn_off "switch.x" COMMAND_ONOFF {} (by decide)
    (Or.inl ⟨rfl, by decide⟩)

/-! ## C9: identity comparison of the on parameter -/

/-- C9: the resolver compares the `on` parameter by identity with the
boolean `True`: any other value — including the integer 1 or a non-empty
string — yields close-cover for the cover domain and turn-off for every
other domain. -/
theorem C9_on_identity (entity_id : String) (p : Params) (v : PyVal)
    (hv : p.«on» = some v) (hne : v ≠ PyVal.bool true) :
    (domainOf entity_id = "cover" →
      determine_service entity_id COMMAND_ONOFF p =
        some (SERVICE_CLOSE_COVER, { entity_id := entity_id })) ∧
    (domainOf entity_id ≠ "cover" →
      determine_service entity_id COMMAND_ONOFF p =
        some (SERVICE_TURN_OFF, { entity_id := entity_id })) := by
  have hfalse : PyVal.isTrueId p.«on» = false := by
    rw [hv]; exact isTrueId_eq_false hne
  constructor
  · intro hc
    simp [determine_service, hc, hfalse, COMMAND_ONOFF_ne_BRIGHTNESS]
  · intro hc
    simp [determine_service, hc, hfalse, COMMAND_ONOFF_ne_BRIGHTNESS]

/-- C9 witness: the integer 1 on a cover yields close-cover, and a
non-empty string on a light yields turn-off. -/
theorem C9_witness :
    determine_service "cover.garage" COMMAND_ONOFF
        { «on» := some (PyVal.int 1) } =
      some (SERVICE_CLOSE_COVER, { entity_id := "cover.garage" }) ∧
    determine_service "light.kitchen" COMMAND_ONOFF
        { «on» := some (PyVal.str "yes") } =
      some (SERVICE_TURN_OFF, { entity_id := "light.kitchen" }) :=
  ⟨(C9_on_identity "cover.garage" _ (PyVal.int 1) rfl (by decide)).1 (by decide),
   (C9_on_identity "light.kitchen" _ (PyVal.str "yes") rfl (by decide)).2 (by decide)⟩

/-! ## C4: descriptor builder and the capability map -/

/-- C4: `entity_to_device` returns `none` exactly for domains absent from
the capability map, and for every mapped domain it returns a descriptor
whose type is the type-prefix plus the mapped device type and whose traits
start with the trait-prefix plus the mapped base trait. -/
theorem C4_build_supported (e : Entity) :
    (entity_to_device e = none ↔ MAPPING_COMPONENT e.domain = none) ∧
    (∀ cd, MAPPING_COMPONENT e.domain = some cd →
      ∃ dev, entity_to_device e = some dev ∧
        dev.type = PREFIX_TYPES ++ cd.deviceType ∧
        ∃ rest, dev.traits = (PREFIX_TRAITS ++ cd.baseTrait) :: rest) := by
  cases h : MAPPING_COMPONENT e.domain with
  | none => simp [entity_to_device, h]
  | some cd =>
    refine ⟨by simp [entity_to_device, h], ?_⟩
    rintro cd' hcd'
    injection hcd' with hcd'
    subst hcd'
    simp only [entity_to_device, h]
    exact ⟨_, rfl, rfl, _, rfl⟩

/-- C4 witness: a light entity is mapped to a LIGHT descriptor with the
OnOff base trait, instantiating the mapped-domain half of the claim. -/
theorem C4_witness :
    ∃ dev, entity_to_device
        { entity_id := "light.kitchen", domain := "light", state := "on" } =
        some dev ∧
      dev.type = PREFIX_TYPES ++ "LIGHT" ∧
      ∃ rest, dev.traits = (PREFIX_TRAITS ++ "OnOff") :: rest :=
  (C4_build_supported
    { entity_id := "light.kitchen", domain := "light", state := "on" }).2
    ⟨"LIGHT", "OnOff",
      [(1, "Brightness"), (16, "ColorSpectrum"), (2, "ColorTemperature")]⟩
    (by decide)

/-! ## C8: monotonicity of conditional traits in the feature bitmask -/

theorem land_pos_of_land_subset {f m1 m2 : ℕ} (hsub : m1 &&& m2 = m1)
    (h : 0 < f &&& m1) : 0 < f &&& m2 := by
  rcases Nat.eq_zero_or_pos (f &&& m2) with h0 | h0
  · exfalso
    have hz : f &&& m1 = 0 := by
      calc f &&& m1 = f &&& (m1 &&& m2) := by rw [hsub]
        _ = f &&& (m2 &&& m1) := by rw [Nat.land_comm m1 m2]
        _ = f &&& m2 &&& m1 := by rw [Nat.land_assoc]
        _ = 0 := by rw [h0]; simp
    omega
  · exact h0

/-- C8: conditional trait inclusion is monotonic in the feature-flag
bitmask: when every set bit of `m1` is also set in `m2`
(`m1 &&& m2 = m1`), every trait of the descriptor built with bitmask `m1`
is also a trait of the descriptor built with bitmask `m2`. -/
theorem C8_trait_monotone (e : Entity) (m1 m2 : ℕ) (hsub : m1 &&& m2 = m1)
    (d1 d2 : DeviceDescriptor)
    (h1 : entity_to_device
      { e with attributes := { e.attributes with supported_features := some m1 } } =
      some d1)
    (h2 : entity_to_device
      { e with attributes := { e.attributes with supported_features := some m2 } } =
      some d2) :
    ∀ t, t ∈ d1.traits → t ∈ d2.traits := by
  intro t ht
  cases h : MAPPING_COMPONENT e.domain with
  | none => simp [entity_to_device, h] at h1
  | some cd =>
    simp only [entity_to_device, h, Option.getD, Option.some.injEq] at h1 h2
    subst h1
    subst h2
    simp only [List.mem_cons, List.mem_map, List.mem_filter] at ht ⊢
    rcases ht with hbase | ⟨ft, ⟨hmem, hflag⟩, hpfx⟩
    · exact Or.inl hbase
    · refine Or.inr ⟨ft, ⟨hmem, ?_⟩, hpfx⟩
      simp only [decide_eq_true_eq] at hflag ⊢
      exact land_pos_of_land_subset hsub hflag

/-- C8 witness: for a light entity, bitmask 1 (⊆ bitmask 3) includes the
Brightness trait, and it is still included with bitmask 3. -/
theorem C8_witness :
    (PREFIX_TRAITS ++ "Brightness") ∈
      DeviceDescriptor.traits
        { id := "light.kitchen", type := PREFIX_TYPES ++ "LIGHT",
          traits := [PREFIX_TRAITS ++ "OnOff", PREFIX_TRAITS ++ "Brightness",
            PREFIX_TRAITS ++ "ColorTemperature"],
          name := {}, willReportState := false } :=
  C8_trait_monotone
    { entity_id := "light.kitchen", domain := "light", state := "on" } 1 3
    (by decide)
    { id := "light.kitchen", type := PREFIX_TYPES ++ "LIGHT",
      traits := [PREFIX_TRAITS ++ "OnOff", PREFIX_TRAITS ++ "Brightness"],
      name := {}, willReportState := false }
    { id := "light.kitchen", type := PREFIX_TYPES ++ "LIGHT",
      traits := [PREFIX_TRAITS ++ "OnOff", PREFIX_TRAITS ++ "Brightness",
        PREFIX_TRAITS ++ "ColorTemperature"],
      name := {}, willReportState := false }
    (by decide) (by decide)
    (PREFIX_TRAITS ++ "Brightness") (by decide)

/-! ## C3 / C5 / C10: the state normalizer -/

theorem pyround_nonneg (q : ℚ) (h : 0 ≤ q) : 0 ≤ pyround q := by
  have hf : 0 ≤ ⌊q⌋ := Int.floor_nonneg.mpr h
  unfold pyround
  split_ifs <;> omega

theorem pyround_le_of_le (q : ℚ) (n : ℤ) (h : q ≤ (n : ℚ)) : pyround q ≤ n := by
  have hf : ⌊q⌋ ≤ n := by
    have := Int.floor_le_floor h
    rwa [Int.floor_intCast] at this
  have hlt : ¬ q - ⌊q⌋ < 1 / 2 → ⌊q⌋ < n := by
    intro h1
    have h1' : (1 : ℚ) / 2 ≤ q - ⌊q⌋ := le_of_not_lt h1
    have : (⌊q⌋ : ℚ) < q := by linarith
    have : (⌊q⌋ : ℚ) < (n : ℚ) := this.trans_le h
    exact_mod_cast this
  unfold pyround
  split_ifs with h1 h2 h3
  · exact hf
  · have := hlt h1; omega
  · exact hf
  · have := hlt h1; omega

/-- The resolved 0–255-scale brightness is within [0, 255] whenever the
brightness attribute (when a number) is within [0, 255] and the volume
level (when present) is within [0, 1]. -/
theorem final_brightness255_bounds (e : Entity)
    (hb : ∀ q, e.attributes.brightness = some (AttrVal.num q) → 0 ≤ q ∧ q ≤ 255)
    (hv : ∀ v, e.attributes.volume_level = some v → 0 ≤ v ∧ v ≤ 1) :
    0 ≤ final_brightness255 e ∧ final_brightness255 e ≤ 255 := by
  by_cases hd : e.domain = "media_player"
  · have hlev : 0 ≤ min 1 (e.attributes.volume_level.getD
        (if (e.state ≠ STATE_OFF : Bool) then (1:ℚ) else 0)) * 255 ∧
        min 1 (e.attributes.volume_level.getD
          (if (e.state ≠ STATE_OFF : Bool) then (1:ℚ) else 0)) * 255 ≤ 255 := by
      rcases hvl : e.attributes.volume_level with _ | v
      · constructor
        · have : (0:ℚ) ≤ min 1 ((Option.none (α := ℚ)).getD
              (if (e.state ≠ STATE_OFF : Bool) then (1:ℚ) else 0)) := by
            simp only [Option.getD]
            split_ifs <;> norm_num
          positivity
        · have := min_le_left (1:ℚ) ((Option.none (α := ℚ)).getD
            (if (e.state ≠ STATE_OFF : Bool) then (1:ℚ) else 0))
          nlinarith
      · obtain ⟨hv0, _⟩ := hv v hvl
        constructor
        · have : (0:ℚ) ≤ min 1 ((Option.some v).getD
              (if (e.state ≠ STATE_OFF : Bool) then (1:ℚ) else 0)) := by
            simp only [Option.getD]
            exact le_min (by norm_num) hv0
          positivity
        · have := min_le_left (1:ℚ) ((Option.some v).getD
            (if (e.state ≠ STATE_OFF : Bool) then (1:ℚ) else 0))
          nlinarith
    have h1 : 0 ≤ pyround (min 1 (e.attributes.volume_level.getD
        (if (e.state ≠ STATE_OFF : Bool) then (1:ℚ) else 0)) * 255) :=
      pyround_nonneg _ hlev.1
    have h2 : pyround (min 1 (e.attributes.volume_level.getD
        (if (e.state ≠ STATE_OFF : Bool) then (1:ℚ) else 0)) * 255) ≤ 255 :=
      pyround_le_of_le _ 255 (by exact_mod_cast hlev.2)
    simp only [final_brightness255, hd, if_true, reduceIte]
    exact ⟨by exact_mod_cast h1, by exact_mod_cast h2⟩
  · rcases hab : e.attributes.brightness with _ | av
    · simp only [final_brightness255, hab, hd, reduceIte]
      split_ifs <;> norm_num
    · cases av with
      | null =>
        simp only [final_brightness255, hab, hd, reduceIte]
        split_ifs <;> norm_num
      | num q =>
        simp only [final_brightness255, hab, hd, reduceIte]
        exact hb q hab

/-- C3: whenever the brightness attribute, when present and a number, is an
integer in [0, 255] and the volume level, when present, is in [0, 1], the
query result's brightness is an integer in [0, 100] equal to
`floor(100 * brightness255 / 255)` for the resolved 0–255-scale
brightness (truncation, not rounding). -/
theorem C3_query_brightness_percent (e : Entity)
    (hb : ∀ q, e.attributes.brightness = some (AttrVal.num q) →
      ∃ n : ℕ, n ≤ 255 ∧ q = (n : ℚ))
    (hv : ∀ v, e.attributes.volume_level = some v → 0 ≤ v ∧ v ≤ 1) :
    0 ≤ (query_device e).brightness ∧ (query_device e).brightness ≤ 100 ∧
      (query_device e).brightness = ⌊100 * final_brightness255 e / 255⌋ := by
  have hb' : ∀ q, e.attributes.brightness = some (AttrVal.num q) →
      0 ≤ q ∧ q ≤ 255 := by
    intro q hq
    obtain ⟨n, hn, rfl⟩ := hb q hq
    exact ⟨by positivity, by exact_mod_cast hn⟩
  obtain ⟨h0, h255⟩ := final_brightness255_bounds e hb' hv
  have harg : (0:ℚ) ≤ 100 * (final_brightness255 e / 255) := by positivity
  have harg2 : 100 * (final_brightness255 e / 255) ≤ 100 := by
    have hdiv : final_brightness255 e / 255 ≤ 1 := by
      rw [div_le_one (by norm_num : (0:ℚ) < 255)]
      exact h255
    linarith
  have hq : (query_device e).brightness =
      pytrunc (100 * (final_brightness255 e / 255)) := rfl
  rw [hq, pytrunc_eq_floor _ harg]
  refine ⟨Int.floor_nonneg.mpr harg, ?_, by rw [mul_div_assoc]⟩
  have := Int.floor_le_floor harg2
  have h100 : ⌊(100:ℚ)⌋ = 100 := by norm_num
  omega

/-- C3 witness: a light entity with state "on" and brightness attribute
128, whose query brightness is 50 ∈ [0, 100]. -/
theorem C3_witness :
    0 ≤ (query_device lightOn128).brightness ∧
      (query_device lightOn128).brightness ≤ 100 ∧
      (query_device lightOn128).brightness =
        ⌊100 * final_brightness255 lightOn128 / 255⌋ := by
  refine C3_query_brightness_percent _ ?_ ?_
  · intro q hq
    refine ⟨128, by norm_num, ?_⟩
    have : q = 128 := by simpa [lightOn128] using hq.symm
    rw [this]; norm_num
  · intro v hv
    simp [lightOn128] at hv

/-- C5: for every media-player entity the resolved 0–255-scale brightness
is `round(min(1.0, level) * 255)` for the volume level (default 1.0 when
on, 0.0 when off), and the query result does not depend on the brightness
attribute at all. -/
theorem C5_media_volume_as_brightness (e : Entity)
    (hm : e.domain = "media_player") :
    final_brightness255 e =
      ((pyround (min 1 (e.attributes.volume_level.getD
        (if (e.state ≠ STATE_OFF : Bool) then (1:ℚ) else 0)) * 255) : ℤ) : ℚ) ∧
    (∀ b, query_device
        { e with attributes := { e.attributes with brightness := b } } =
      query_device e) := by
  constructor
  · simp [final_brightness255, hm]
  · intro b
    simp [query_device, final_brightness255, hm]

/-- C5 witness: a media-player with volume-level 0.5 and state "playing"
resolves to brightness255 = 128 and query brightness 50, and replacing its
brightness attribute does not change the query result. -/
theorem C5_witness :
    final_brightness255 mediaPlayerHalf = ((128:ℤ):ℚ) ∧
    (query_device mediaPlayerHalf).brightness = 50 ∧
    query_device mediaPlayerHalfNoBrightness = query_device mediaPlayerHalf := by
  have h := C5_media_volume_as_brightness mediaPlayerHalf rfl
  have h1 : final_brightness255 mediaPlayerHalf = ((128:ℤ):ℚ) := by
    rw [h.1]
    norm_num [pyround, mediaPlayerHalf]
  refine ⟨h1, ?_, ?_⟩
  · have hq : (query_device mediaPlayerHalf).brightness =
        pytrunc (100 * (final_brightness255 mediaPlayerHalf / 255)) := rfl
    rw [hq, h1]
    norm_num [pytrunc]
  · exact h.2 none

/-- C10: a non-media-player entity with state "off" but an explicit
numeric brightness attribute `b` in [0, 255] queries as on = false with
brightness `floor(100 * b / 255)` — the on/off default is not applied. -/
theorem C10_off_with_explicit_brightness (e : Entity) (b : ℚ)
    (hd : e.domain ≠ "media_player") (hs : e.state = STATE_OFF)
    (hb : e.attributes.brightness = some (AttrVal.num b))
    (hbr : ∃ n : ℕ, n ≤ 255 ∧ b = (n : ℚ)) :
    (query_device e).«on» = false ∧
      (query_device e).brightness = ⌊100 * b / 255⌋ := by
  have hba : (0:ℚ) ≤ b := by obtain ⟨n, _, rfl⟩ := hbr; positivity
  have hfb : final_brightness255 e = b := by
    simp [final_brightness255, hd, hb]
  constructor
  · simp [query_device, hs]
  · have hq : (query_device e).brightness =
        pytrunc (100 * (final_brightness255 e / 255)) := rfl
    rw [hq, hfb, pytrunc_eq_floor _ (by positivity), mul_div_assoc]

/-- C10 witness: a light with state "off" and brightness attribute 255
queries as on = false with brightness 100 > 0. -/
theorem C10_witness :
    (query_device lightOff255).«on» = false ∧
    (query_device lightOff255).brightness = 100 ∧
    0 < (query_device lightOff255).brightness := by
  have h := C10_off_with_explicit_brightness lightOff255 255
    (by decide) rfl rfl ⟨255, by norm_num, by norm_num⟩
  have h2 : (⌊(100 * 255 / 255 : ℚ)⌋ : ℤ) = 100 := by norm_num
  exact ⟨h.1, by rw [h.2, h2], by rw [h.2, h2]; norm_num⟩

end SmartHome
